import Mathlib

/-!
# Shallow embedding of the tv-webhook symbol-resolution cache (src/main.py)

The subject program resolves a trading symbol to a broker security id
through three tiers: an in-memory dict (`symbol_cache`), an in-process
CSV view (`csv_cache["data"]`) backed by a file on disk, and a remote
catalog lookup (`fetch_security_id_from_dhan`).  We embed the pure
decision logic of each function, making the ambient mutable state
(`symbol_cache`, `csv_cache`, the CSV file on disk) explicit, and the
external world (the Dhan API response, I/O failures) a parameter.

Conventions of the embedding:
* A CSV row is the quadruple of the four columns the code reads and
  writes (`SEM_EXM_EXCH_ID`, `SEM_TRADING_SYMBOL`, `SEM_SERIES`,
  `SEM_SMST_SECURITY_ID`), all treated as strings, matching the
  `str(...)` normalisations in the source.
* The Python dict `symbol_cache` is an association list; assignment is
  cons (the new binding shadows any older one, which is what dict
  assignment gives to subsequent lookups).
* `pd.read_csv` of a file the process itself wrote is modelled as
  returning the rows stored on disk; an I/O or write failure inside the
  `try` of `save_security_id_to_csv` is modelled by the `ioFail` flag.
* Exceptions that the source catches are modelled as explicit outcome
  constructors; each embedded function is total, mirroring the fact
  that the corresponding Python function returns (rather than raises)
  on every path the claims are about.
-/

/-- One row of the security-id CSV, with the four columns used by
`src/main.py` (`SEM_EXM_EXCH_ID`, `SEM_TRADING_SYMBOL`, `SEM_SERIES`,
`SEM_SMST_SECURITY_ID`). -/
structure Row where
  exchId : String
  tradingSymbol : String
  series : String
  securityId : String
deriving DecidableEq

/-- The row filter used both by `save_security_id_to_csv` and by the
CSV tier of `get_security_id`: exact string equality on the candidate
key (exchange, trading symbol, series). -/
def rowMatches (exchange symbol instrument : String) (r : Row) : Bool :=
  r.exchId == exchange && r.tradingSymbol == symbol && r.series == instrument

/-- The memory-tier key, `f"{exchange}:{ticker_symbol}:{instrument}"`
from `get_security_id`. -/
def cacheKey (exchange symbol instrument : String) : String :=
  exchange ++ ":" ++ symbol ++ ":" ++ instrument

/-- One row of the catalog returned by `dhan.fetch_security_list()`;
only the three columns that `fetch_security_id_from_dhan` reads. -/
structure CatalogRow where
  tradingSymbol : String
  series : String
  securityId : String
deriving DecidableEq

/-- The possible outcomes of the remote interaction inside
`fetch_security_id_from_dhan`:
* `unavailable` — the module-level `dhan` handle is falsy;
* `raise e` — `dhan.fetch_security_list()` (or the subsequent frame
  handling) raises: transport, deserialization or authentication
  failure;
* `respNone` — the call returns `None`;
* `resp hasSymbolCol rows` — the call returns a catalog (the source
  accepts both a list of records and a pre-built dataframe and
  converts both to the same tabular shape, so one constructor covers
  both wire shapes); `hasSymbolCol` is the
  `'SEM_TRADING_SYMBOL' in df.columns` test. -/
inductive RemoteEnv where
  | unavailable
  | raise (e : String)
  | respNone
  | resp (hasSymbolCol : Bool) (rows : List CatalogRow)
deriving DecidableEq

/-- `RemoteEnv` outcomes that are failures rather than catalog
answers (the `dhan` handle missing, or an exception inside the call). -/
def RemoteEnv.isFailure : RemoteEnv → Bool
  | .unavailable => true
  | .raise _ => true
  | .respNone => false
  | .resp _ _ => false

/-- Embedding of `fetch_security_id_from_dhan(symbol, instrument,
exchange)` (src/main.py lines 182–214).  Every failure outcome yields
`none`; on a catalog response with the trading-symbol column present it
takes the first row matching `SEM_TRADING_SYMBOL == symbol` and
`SEM_SERIES == instrument` (the `exchange` argument is never consulted
by the body). -/
def fetch_security_id_from_dhan (env : RemoteEnv)
    (symbol instrument exchange : String) : Option String :=
  match env with
  | .unavailable => none
  | .raise _ => none
  | .respNone => none
  | .resp hasSymbolCol rows =>
    if hasSymbolCol then
      (rows.find? fun r => r.tradingSymbol == symbol && r.series == instrument).map
        (fun r => r.securityId)
    else
      none

/-- Embedding of `save_security_id_to_csv(exchange, symbol, instrument,
security_id)` (src/main.py lines 151–179).  `disk` is the persisted CSV
(`none` = file absent; reading an absent file yields the empty header
frame as in the source).  `ioFail` models an exception inside the
function's `try` (the `except` returns `False` and we take the file as
unchanged).  Returns the Python return value and the new disk state. -/
def save_security_id_to_csv (ioFail : Bool) (disk : Option (List Row))
    (exchange symbol instrument securityId : String) :
    Bool × Option (List Row) :=
  if ioFail then
    (false, disk)
  else
    let df := disk.getD []
    let existing := df.filter (rowMatches exchange symbol instrument)
    if existing.isEmpty then
      (true, some (df ++ [⟨exchange, symbol, instrument, securityId⟩]))
    else
      (false, disk)

/-- The mutable state shared by the resolution path:
`symbol_cache` (the in-memory dict), `csv_cache["data"]` (the
in-process dataframe view, `none` when never loaded), and the CSV file
on disk (`none` when absent). -/
structure St where
  symbolCache : List (String × String)
  csvData : Option (List Row)
  disk : Option (List Row)
deriving DecidableEq

/-- Result of one `get_security_id` call: the returned value, the new
shared state, and instrumentation counting how many remote lookups,
CSV-view scans and actual row appends the call performed. -/
structure ResolveOut where
  result : Option String
  st : St
  remoteCalls : Nat
  datasetScans : Nat
  appends : Nat
deriving DecidableEq

/-- The CSV-tier lookup inside `get_security_id`: filter the in-process
view by the candidate key and take `iloc[0]`'s security id (the first
match in file order); no view loaded means no hit. -/
def csvLookup (csvData : Option (List Row))
    (exchange symbol instrument : String) : Option String :=
  match csvData with
  | some rows =>
    (rows.find? (rowMatches exchange symbol instrument)).map (fun r => r.securityId)
  | none => none

/-- Embedding of `get_security_id(ticker_symbol, instrument, exchange)`
(src/main.py lines 262–298).  Tier order as in the source: memory dict,
CSV view, remote fetch; on a truthy remote result it calls
`save_security_id_to_csv`, inserts into `symbol_cache` unconditionally,
reloads the CSV view from disk if the file exists, and returns the id.
`if security_id:` is Python truthiness: `None` and `""` both fall
through to the final `return None`. -/
def get_security_id (env : RemoteEnv) (ioFail : Bool) (st : St)
    (ticker_symbol instrument exchange : String) : ResolveOut :=
  let cache_key := cacheKey exchange ticker_symbol instrument
  match st.symbolCache.lookup cache_key with
  | some v => ⟨some v, st, 0, 0, 0⟩
  | none =>
    let scans := if st.csvData.isSome then 1 else 0
    match csvLookup st.csvData exchange ticker_symbol instrument with
    | some sid =>
      ⟨some sid, { st with symbolCache := (cache_key, sid) :: st.symbolCache },
        0, scans, 0⟩
    | none =>
      match fetch_security_id_from_dhan env ticker_symbol instrument exchange with
      | some sid =>
        if sid ≠ "" then
          let saved := save_security_id_to_csv ioFail st.disk exchange
            ticker_symbol instrument sid
          let disk' := saved.2
          let csvData' := match disk' with
            | some rows => some rows
            | none => st.csvData
          ⟨some sid,
            ⟨(cache_key, sid) :: st.symbolCache, csvData', disk'⟩,
            1, scans, if saved.1 then 1 else 0⟩
        else
          ⟨none, st, 1, scans, 0⟩
      | none => ⟨none, st, 1, scans, 0⟩

example :
    (get_security_id (.resp true [⟨"INFY", "EQ", "1594"⟩]) false
      ⟨[], some [], none⟩ "INFY" "EQ" "NSE").result = some "1594" := by
  decide

example :
    (get_security_id .unavailable false
      ⟨[("NSE:INFY:EQ", "7")], some [⟨"NSE", "INFY", "EQ", "8"⟩], none⟩
      "INFY" "EQ" "NSE").result = some "7" := by
  decide

/-! ## Startup provisioner: `create_empty_csv` and `load_csv_cache` -/

/-- State of the CSV file on disk as the provisioner sees it: `none` =
no file; `some none` = a file exists but `pd.read_csv` raises on it;
`some (some rows)` = a file that parses to `rows`. -/
def FileState : Type := Option (Option (List Row))

instance : DecidableEq FileState := by
  unfold FileState
  infer_instance

/-- Embedding of `create_empty_csv()` (src/main.py lines 139–148):
writes a header-only CSV (the empty row list) and returns `True`;
on an exception (`fails`) it returns `False` and we take the file as
unchanged. -/
def create_empty_csv (fails : Bool) (disk : FileState) : Bool × FileState :=
  if fails then (false, disk) else (true, some (some []))

/-- Outcome of `download_csv(url, destination)`: it either returns
`False` (any exception during retrieval), or returns `True` having
written a file to the destination whose later parse is `content`. -/
inductive DownloadOutcome where
  | fails
  | succeeds (content : Option (List Row))
deriving DecidableEq

/-- The value `csv_cache["source"]` is set to by `load_csv_cache`:
the strings `"local_file"`, `"downloaded"`, `"none"` and `"error"`. -/
inductive CsvSource where
  | local_file
  | downloaded
  | noneYet
  | loadError
deriving DecidableEq

/-- The module-level `csv_cache` dict: `data`, `error`, `source`. -/
structure CsvCacheState where
  data : Option (List Row)
  err : Option String
  source : Option CsvSource
deriving DecidableEq

/-- Environment of one `load_csv_cache()` run: the local file (with its
age, which we record to reason about freshness even though no line of
the function reads it), the `CSV_DOWNLOAD_URL` configuration (the empty
string is falsy = unconfigured), the outcome a download attempt would
have, and whether `create_empty_csv` would fail. -/
structure ProvisionEnv where
  localFile : FileState
  localAgeSeconds : Nat
  csvDownloadUrl : String
  download : DownloadOutcome
  createEmptyFails : Bool
deriving DecidableEq

/-- Result of `load_csv_cache()`: the Python return value, the
resulting `csv_cache` (starting from the initial
`{"data": None, "error": None, "source": None}`), the resulting disk
file, and how many download attempts were made. -/
structure ProvisionOut where
  ret : Bool
  cache : CsvCacheState
  disk : FileState
  downloads : Nat
deriving DecidableEq

/-- Embedding of `load_csv_cache()` (src/main.py lines 229–259).
Branch order as in the source: an existing local file is read with no
freshness check; otherwise, with a download URL configured, one
download is attempted and its file read on success; otherwise (or when
the download fails) `create_empty_csv()` runs and the source is
`"none"`.  A `pd.read_csv` exception on either path lands in the outer
`except`, setting `source = "error"` and returning `False`. -/
def load_csv_cache (env : ProvisionEnv) : ProvisionOut :=
  match env.localFile with
  | some (some rows) =>
    ⟨true, ⟨some rows, none, some .local_file⟩, env.localFile, 0⟩
  | some none =>
    ⟨false, ⟨none, some "Error loading CSV", some .loadError⟩, env.localFile, 0⟩
  | none =>
    if env.csvDownloadUrl ≠ "" then
      match env.download with
      | .succeeds (some rows) =>
        ⟨true, ⟨some rows, none, some .downloaded⟩, some (some rows), 1⟩
      | .succeeds none =>
        ⟨false, ⟨none, some "Error loading CSV", some .loadError⟩, some none, 1⟩
      | .fails =>
        let created := create_empty_csv env.createEmptyFails none
        ⟨false,
          ⟨none, some "CSV not available initially - will fetch from Dhan API",
            some .noneYet⟩,
          created.2, 1⟩
    else
      let created := create_empty_csv env.createEmptyFails none
      ⟨false,
        ⟨none, some "CSV not available initially - will fetch from Dhan API",
          some .noneYet⟩,
        created.2, 0⟩

/-! ## Claims -/

/-- C1: `get_security_id` consults the tiers in strict order — memory
map, then CSV view, then remote — with early return on the first hit:
when the resolution key is in `symbol_cache`, the stored value is
returned immediately, the state is unchanged, and no dataset scan, no
remote call and no append happen, even when the CSV view holds a row
with the same key and a different identifier (memory always wins); and
when the memory tier misses but the CSV view has a hit, that value is
returned with no remote call and no append. -/
theorem C1_memory_tier_wins (env : RemoteEnv) (ioFail : Bool) (st : St)
    (symbol instrument exchange v : String)
    (hmem : st.symbolCache.lookup (cacheKey exchange symbol instrument) = some v)
    (rows : List Row) (hdata : st.csvData = some rows)
    (r : Row) (hr : r ∈ rows)
    (hrk : rowMatches exchange symbol instrument r = true)
    (hdiff : r.securityId ≠ v) :
    get_security_id env ioFail st symbol instrument exchange =
      ⟨some v, st, 0, 0, 0⟩ ∧
    (∀ st' sid,
      st'.symbolCache.lookup (cacheKey exchange symbol instrument) = none →
      csvLookup st'.csvData exchange symbol instrument = some sid →
      (get_security_id env ioFail st' symbol instrument exchange).result =
          some sid ∧
        (get_security_id env ioFail st' symbol instrument exchange).remoteCalls
          = 0 ∧
        (get_security_id env ioFail st' symbol instrument exchange).appends
          = 0) := by
  refine ⟨by simp [get_security_id, hmem], ?_⟩
  intro st' sid hmem' hcsv'
  simp [get_security_id, hmem', hcsv']

/-- The shared state of `C1_memory_tier_wins_witness`: the key
`NSE:INFY:EQ` is bound to `"7"` in memory while the CSV view holds the
different identifier `"8"` for the same key. -/
def stW1 : St :=
  ⟨[("NSE:INFY:EQ", "7")], some [⟨"NSE", "INFY", "EQ", "8"⟩], none⟩

theorem C1_memory_tier_wins_witness :
    get_security_id .unavailable false stW1 "INFY" "EQ" "NSE" =
      ⟨some "7", stW1, 0, 0, 0⟩ ∧
    (get_security_id .unavailable false ⟨[], some [⟨"NSE", "INFY", "EQ", "8"⟩], none⟩
      "INFY" "EQ" "NSE").result = some "8" :=
  ⟨(C1_memory_tier_wins .unavailable false stW1 "INFY" "EQ" "NSE" "7"
      (by decide) [⟨"NSE", "INFY", "EQ", "8"⟩] rfl ⟨"NSE", "INFY", "EQ", "8"⟩
      (by decide) (by decide) (by decide)).1,
   ((C1_memory_tier_wins .unavailable false stW1 "INFY" "EQ" "NSE" "7"
      (by decide) [⟨"NSE", "INFY", "EQ", "8"⟩] rfl ⟨"NSE", "INFY", "EQ", "8"⟩
      (by decide) (by decide) (by decide)).2
      ⟨[], some [⟨"NSE", "INFY", "EQ", "8"⟩], none⟩ "8"
      (by decide) (by decide)).1⟩

/-- C5: every failure outcome of the remote interaction — the `dhan`
handle unavailable, or a transport / deserialization / authentication
exception inside the call — makes `fetch_security_id_from_dhan` return
`None`; the embedded function is total, so no failure propagates as an
exception to the resolution path. -/
theorem C5_remote_failure_absorbed (env : RemoteEnv)
    (h : env.isFailure = true) (symbol instrument exchange : String) :
    fetch_security_id_from_dhan env symbol instrument exchange = none := by
  cases env <;> simp_all [RemoteEnv.isFailure, fetch_security_id_from_dhan]

theorem C5_remote_failure_absorbed_witness :
    fetch_security_id_from_dhan (.raise "connection reset") "INFY" "EQ" "NSE" =
      none :=
  C5_remote_failure_absorbed (.raise "connection reset") (by decide)
    "INFY" "EQ" "NSE"

/-- C9: the result of `fetch_security_id_from_dhan` is independent of
its `exchange` argument — the catalog match filters only on
`SEM_TRADING_SYMBOL` and `SEM_SERIES` and never reads an exchange
column — so, for any catalog, two calls differing only in the exchange
return the same result (and `get_security_id` then writes that result
back under whichever exchange's key was asked for). -/
theorem C9_exchange_independent (env : RemoteEnv)
    (symbol instrument exchange₁ exchange₂ : String) :
    fetch_security_id_from_dhan env symbol instrument exchange₁ =
      fetch_security_id_from_dhan env symbol instrument exchange₂ := rfl

/-- C4: when the key is absent from the memory map, the CSV view has no
match, and the remote lookup yields `None` (catalog miss or any remote
failure), `get_security_id` returns `None` and leaves the shared state
exactly as it was: no row appended, no memory entry created. -/
theorem C4_miss_propagation (env : RemoteEnv) (ioFail : Bool) (st : St)
    (symbol instrument exchange : String)
    (hmem : st.symbolCache.lookup (cacheKey exchange symbol instrument) = none)
    (hcsv : csvLookup st.csvData exchange symbol instrument = none)
    (hfetch : fetch_security_id_from_dhan env symbol instrument exchange = none) :
    get_security_id env ioFail st symbol instrument exchange =
      ⟨none, st, 1, if st.csvData.isSome then 1 else 0, 0⟩ := by
  simp [get_security_id, hmem, hcsv, hfetch]

theorem C4_miss_propagation_witness :
    get_security_id (.raise "timeout") false
      ⟨[], some [⟨"NSE", "TCS", "EQ", "3"⟩], some [⟨"NSE", "TCS", "EQ", "3"⟩]⟩
      "INFY" "EQ" "NSE" =
    ⟨none, ⟨[], some [⟨"NSE", "TCS", "EQ", "3"⟩], some [⟨"NSE", "TCS", "EQ", "3"⟩]⟩,
      1, 1, 0⟩ :=
  C4_miss_propagation (.raise "timeout") false
    ⟨[], some [⟨"NSE", "TCS", "EQ", "3"⟩], some [⟨"NSE", "TCS", "EQ", "3"⟩]⟩
    "INFY" "EQ" "NSE" (by decide) (by decide) (by decide)

/-- C10: after a remote-tier hit, `get_security_id` returns the
identifier and inserts it into the memory map regardless of the
write-back's outcome — for every `ioFail` and every prior disk state,
so in particular when `save_security_id_to_csv` returns `false`
(duplicate row) or absorbs an internal error (`ioFail = true`). -/
theorem C10_result_unconditional_on_writeback (env : RemoteEnv)
    (ioFail : Bool) (st : St) (symbol instrument exchange sid : String)
    (hmem : st.symbolCache.lookup (cacheKey exchange symbol instrument) = none)
    (hcsv : csvLookup st.csvData exchange symbol instrument = none)
    (hfetch : fetch_security_id_from_dhan env symbol instrument exchange = some sid)
    (hne : sid ≠ "") :
    (get_security_id env ioFail st symbol instrument exchange).result = some sid ∧
    (get_security_id env ioFail st symbol instrument exchange).st.symbolCache.lookup
      (cacheKey exchange symbol instrument) = some sid := by
  simp [get_security_id, hmem, hcsv, hfetch, hne, List.lookup]

theorem C10_result_unconditional_on_writeback_witness :
    (get_security_id (.resp true [⟨"INFY", "EQ", "1594"⟩]) true
      ⟨[], none, none⟩ "INFY" "EQ" "NSE").result = some "1594" ∧
    (get_security_id (.resp true [⟨"INFY", "EQ", "1594"⟩]) true
      ⟨[], none, none⟩ "INFY" "EQ" "NSE").st.symbolCache.lookup
      (cacheKey "NSE" "INFY" "EQ") = some "1594" :=
  C10_result_unconditional_on_writeback (.resp true [⟨"INFY", "EQ", "1594"⟩])
    true ⟨[], none, none⟩ "INFY" "EQ" "NSE" "1594"
    (by decide) (by decide) (by decide) (by decide)

/-- C2: resolving the same never-before-seen key twice in sequence —
first call satisfied only by the remote tier — performs exactly one
remote lookup and exactly one dataset append in total; the second call
is a pure memory-tier hit returning the same identifier with no further
remote call or append. -/
theorem C2_writeback_idempotent (env : RemoteEnv) (st : St)
    (symbol instrument exchange sid : String)
    (hmem : st.symbolCache.lookup (cacheKey exchange symbol instrument) = none)
    (hcsv : csvLookup st.csvData exchange symbol instrument = none)
    (hdisk : (st.disk.getD []).filter (rowMatches exchange symbol instrument) = [])
    (hfetch : fetch_security_id_from_dhan env symbol instrument exchange = some sid)
    (hne : sid ≠ "") :
    let r1 := get_security_id env false st symbol instrument exchange
    let r2 := get_security_id env false r1.st symbol instrument exchange
    r1.result = some sid ∧ r1.remoteCalls = 1 ∧ r1.appends = 1 ∧
    r2.result = some sid ∧ r2.remoteCalls = 0 ∧ r2.appends = 0 ∧
    r2.st = r1.st := by
  simp [get_security_id, hmem, hcsv, hfetch, hne,
    save_security_id_to_csv, hdisk, List.lookup]

theorem C2_writeback_idempotent_witness :
    let r1 := get_security_id (.resp true [⟨"INFY", "EQ", "1594"⟩]) false
      ⟨[], some [], none⟩ "INFY" "EQ" "NSE"
    let r2 := get_security_id (.resp true [⟨"INFY", "EQ", "1594"⟩]) false
      r1.st "INFY" "EQ" "NSE"
    r1.result = some "1594" ∧ r1.remoteCalls = 1 ∧ r1.appends = 1 ∧
    r2.result = some "1594" ∧ r2.remoteCalls = 0 ∧ r2.appends = 0 ∧
    r2.st = r1.st :=
  C2_writeback_idempotent (.resp true [⟨"INFY", "EQ", "1594"⟩])
    ⟨[], some [], none⟩ "INFY" "EQ" "NSE" "1594"
    (by decide) (by decide) (by decide) (by decide) (by decide)

/-- C3: `save_security_id_to_csv` (a) returns `true` only when no
persisted row matches the candidate key (on any `ioFail`), (b) on a
key with no matching row it appends exactly that row and returns
`true`, (c) on a key with a matching row it returns `false` and leaves
the persisted dataset unchanged, and (d) calling it twice with an
identical record key starting from a dataset without that key leaves
exactly one matching row. -/
theorem C3_append_if_absent (disk : Option (List Row))
    (exchange symbol instrument sid sid₂ : String) :
    (∀ ioF, (save_security_id_to_csv ioF disk exchange symbol instrument sid).1 = true →
      (disk.getD []).filter (rowMatches exchange symbol instrument) = []) ∧
    ((disk.getD []).filter (rowMatches exchange symbol instrument) = [] →
      save_security_id_to_csv false disk exchange symbol instrument sid =
        (true, some (disk.getD [] ++ [⟨exchange, symbol, instrument, sid⟩]))) ∧
    ((disk.getD []).filter (rowMatches exchange symbol instrument) ≠ [] →
      save_security_id_to_csv false disk exchange symbol instrument sid =
        (false, disk)) ∧
    ((disk.getD []).filter (rowMatches exchange symbol instrument) = [] →
      (((save_security_id_to_csv false
          (save_security_id_to_csv false disk exchange symbol instrument sid).2
          exchange symbol instrument sid₂).2.getD []).filter
        (rowMatches exchange symbol instrument)).length = 1) := by
  refine ⟨?_, ?_, ?_, ?_⟩
  · intro ioF h
    cases ioF with
    | true => simp [save_security_id_to_csv] at h
    | false =>
      by_cases hf : (disk.getD []).filter (rowMatches exchange symbol instrument) = []
      · exact hf
      · simp [save_security_id_to_csv, hf] at h
  · intro h
    simp [save_security_id_to_csv, h]
  · intro h
    simp [save_security_id_to_csv, h]
  · intro h
    simp [save_security_id_to_csv, h, List.filter_append, rowMatches]

theorem C3_append_if_absent_witness :
    ((save_security_id_to_csv false (some []) "NSE" "INFY" "EQ" "1594").1 = true →
      ((some ([] : List Row)).getD []).filter (rowMatches "NSE" "INFY" "EQ") = []) ∧
    save_security_id_to_csv false (some []) "NSE" "INFY" "EQ" "1594" =
      (true, some [⟨"NSE", "INFY", "EQ", "1594"⟩]) ∧
    save_security_id_to_csv false (some [⟨"NSE", "INFY", "EQ", "1594"⟩])
      "NSE" "INFY" "EQ" "9999" =
      (false, some [⟨"NSE", "INFY", "EQ", "1594"⟩]) ∧
    (((save_security_id_to_csv false
        (save_security_id_to_csv false (some []) "NSE" "INFY" "EQ" "1594").2
        "NSE" "INFY" "EQ" "9999").2.getD []).filter
      (rowMatches "NSE" "INFY" "EQ")).length = 1 :=
  ⟨(C3_append_if_absent (some []) "NSE" "INFY" "EQ" "1594" "9999").1 false,
   (C3_append_if_absent (some []) "NSE" "INFY" "EQ" "1594" "9999").2.1 (by decide),
   (C3_append_if_absent (some [⟨"NSE", "INFY", "EQ", "1594"⟩])
      "NSE" "INFY" "EQ" "9999" "0").2.2.1 (by decide),
   (C3_append_if_absent (some []) "NSE" "INFY" "EQ" "1594" "9999").2.2.2 (by decide)⟩

/-- `find?` returns the head of the filtered list: the first match in
list order. -/
theorem find?_filter_head? {α : Type} (p : α → Bool) (l : List α) :
    l.find? p = (l.filter p).head? := by
  induction l with
  | nil => rfl
  | cons a l ih =>
    by_cases h : p a
    · rw [List.find?_cons_of_pos _ h, List.filter_cons_of_pos h, List.head?_cons]
    · rw [List.find?_cons_of_neg _ h, List.filter_cons_of_neg h, ih]

/-- C8: when the CSV view holds more than one row matching the
resolution key, the dataset tier of `get_security_id` deterministically
returns the security id of the first matching row in file order. -/
theorem C8_first_match_on_duplicates (env : RemoteEnv) (ioFail : Bool)
    (st : St) (symbol instrument exchange : String) (rows : List Row)
    (hmem : st.symbolCache.lookup (cacheKey exchange symbol instrument) = none)
    (hdata : st.csvData = some rows)
    (hdup : 1 < (rows.filter (rowMatches exchange symbol instrument)).length) :
    (get_security_id env ioFail st symbol instrument exchange).result =
      ((rows.filter (rowMatches exchange symbol instrument)).head?).map
        (fun r => r.securityId) := by
  cases hfl : rows.filter (rowMatches exchange symbol instrument) with
  | nil => rw [hfl] at hdup; simp at hdup
  | cons r₀ tl =>
    simp [get_security_id, hmem, hdata, csvLookup, find?_filter_head?, hfl]

theorem C8_first_match_on_duplicates_witness :
    (get_security_id .unavailable false
      ⟨[], some [⟨"NSE", "ABC", "EQ", "1"⟩, ⟨"NSE", "ABC", "EQ", "2"⟩], none⟩
      "ABC" "EQ" "NSE").result =
      ((([⟨"NSE", "ABC", "EQ", "1"⟩, ⟨"NSE", "ABC", "EQ", "2"⟩] : List Row).filter
        (rowMatches "NSE" "ABC" "EQ")).head?).map (fun r => r.securityId) :=
  C8_first_match_on_duplicates .unavailable false
    ⟨[], some [⟨"NSE", "ABC", "EQ", "1"⟩, ⟨"NSE", "ABC", "EQ", "2"⟩], none⟩
    "ABC" "EQ" "NSE" [⟨"NSE", "ABC", "EQ", "1"⟩, ⟨"NSE", "ABC", "EQ", "2"⟩]
    (by decide) rfl (by decide)

/-- C7: the exact fallback chain of `load_csv_cache`: an existing
parseable local file is loaded with source `"local_file"` and no
download; with no local file, a configured URL and a successful
download of a parseable file, the file is persisted and loaded with
source `"downloaded"`; with no local file and either no URL or a
failed download, an empty header-only shell is written, the source is
`"none"`, and the function returns `False` without raising. -/
theorem C7_provision_chain (env : ProvisionEnv) :
    (∀ rows, env.localFile = some (some rows) →
      load_csv_cache env =
        ⟨true, ⟨some rows, none, some .local_file⟩, env.localFile, 0⟩) ∧
    (∀ rows, env.localFile = none → env.csvDownloadUrl ≠ "" →
      env.download = .succeeds (some rows) →
      load_csv_cache env =
        ⟨true, ⟨some rows, none, some .downloaded⟩, some (some rows), 1⟩) ∧
    (env.localFile = none → env.createEmptyFails = false →
      (env.csvDownloadUrl = "" ∨ env.download = .fails) →
      (load_csv_cache env).cache.source = some .noneYet ∧
      (load_csv_cache env).disk = some (some []) ∧
      (load_csv_cache env).ret = false) := by
  refine ⟨?_, ?_, ?_⟩
  · intro rows h
    simp [load_csv_cache, h]
  · intro rows h hurl hdl
    simp [load_csv_cache, h, hurl, hdl]
  · intro h hce hor
    rcases hor with hurl | hdl
    · simp [load_csv_cache, h, hurl, create_empty_csv, hce]
    · by_cases hurl : env.csvDownloadUrl = "" <;>
        simp [load_csv_cache, h, hurl, hdl, create_empty_csv, hce]

theorem C7_provision_chain_witness :
    load_csv_cache ⟨some (some [⟨"NSE", "INFY", "EQ", "1594"⟩]), 0, "", .fails, false⟩ =
      ⟨true, ⟨some [⟨"NSE", "INFY", "EQ", "1594"⟩], none, some .local_file⟩,
        some (some [⟨"NSE", "INFY", "EQ", "1594"⟩]), 0⟩ ∧
    load_csv_cache ⟨none, 0, "http://u", .succeeds (some []), false⟩ =
      ⟨true, ⟨some [], none, some .downloaded⟩, some (some []), 1⟩ ∧
    (load_csv_cache ⟨none, 0, "", .fails, false⟩).cache.source = some .noneYet :=
  ⟨(C7_provision_chain _).1 _ rfl,
   (C7_provision_chain _).2.1 _ rfl (by decide) rfl,
   ((C7_provision_chain _).2.2 rfl rfl (Or.inl rfl)).1⟩

/-- A provisioner environment whose local dataset copy is far older
than a 24-hour (86400 s) expiry threshold while a download URL is
configured and a fresh download would succeed with different data. -/
def staleEnv : ProvisionEnv :=
  { localFile := some (some [⟨"NSE", "OLD", "EQ", "1"⟩]),
    localAgeSeconds := 1000000,
    csvDownloadUrl := "http://u",
    download := .succeeds (some [⟨"NSE", "FRESH", "EQ", "2"⟩]),
    createEmptyFails := false }

/-- C6 counterexample: `load_csv_cache` applies no time-based expiry.
On a local copy aged far beyond the 24-hour threshold the spec gives
as its example, with a configured URL and a download that would
succeed, the code attempts zero downloads and returns the old local
data — refuting "once older than the threshold a fresh download is
attempted". -/
theorem C6_counterexample :
    86400 < staleEnv.localAgeSeconds ∧
    staleEnv.csvDownloadUrl ≠ "" ∧
    staleEnv.download = .succeeds (some [⟨"NSE", "FRESH", "EQ", "2"⟩]) ∧
    (load_csv_cache staleEnv).downloads = 0 ∧
    (load_csv_cache staleEnv).cache.data = some [⟨"NSE", "OLD", "EQ", "1"⟩] := by
  decide

/-- C6 (amended): `load_csv_cache` applies no time-based cache
expiry: its result is independent of the local file's age, a parseable
local copy is always reused with zero download attempts however old it
is, and a download is only attempted when no local file exists — there
is consequently no expired-redownload path and no stale-fallback path
in this provisioner. -/
theorem C6_no_time_based_expiry (env : ProvisionEnv)
    (rows : List Row) (age : Nat)
    (h : env.localFile = some (some rows)) :
    load_csv_cache { env with localAgeSeconds := age } = load_csv_cache env ∧
    (load_csv_cache env).downloads = 0 ∧
    (load_csv_cache env).ret = true ∧
    (load_csv_cache env).cache.data = some rows := by
  refine ⟨by cases env; rfl, ?_⟩
  simp [load_csv_cache, h]

theorem C6_no_time_based_expiry_witness :
    load_csv_cache { staleEnv with localAgeSeconds := 5 } = load_csv_cache staleEnv ∧
    (load_csv_cache staleEnv).downloads = 0 ∧
    (load_csv_cache staleEnv).ret = true ∧
    (load_csv_cache staleEnv).cache.data = some [⟨"NSE", "OLD", "EQ", "1"⟩] :=
  C6_no_time_based_expiry staleEnv [⟨"NSE", "OLD", "EQ", "1"⟩] 5 rfl
